import Mathlib

/- Shallow embedding of the 23andMe OAuth client of src/fhir/ttam/models.py
   and of the credential guard of src/fhir/basespace/adaptor.py.
   Conventions: time is an integer number of seconds, datetime.now() being
   the field now of the ambient environment, sampled once per top-level
   operation; HTTP is a deterministic oracle carried by ApiEnv, with GET
   requests answered by http_get and token-endpoint POSTs by token_post;
   transport-level failures are not modelled; response bodies carry both
   their raw text and an optional parsed JSON value, the parser itself not
   being modelled; raising an exception is an Except value; every operation
   also returns the list of HTTP events it issued, so that properties about
   network I/O are statable. -/

/-- Minimal JSON values, covering only the shapes the client touches.
    Booleans and nulls never occur in the claims and are omitted. -/
inductive Json where
  | str (s : String)
  | num (n : Int)
  | arr (elems : List Json)
  | obj (fields : List (String × Json))

def jsonLookup : List (String × Json) → String → Option Json
  | [], _ => none
  | (k, v) :: rest, key => if k == key then some v else jsonLookup rest key

/-- Indexing a parsed JSON object by a string key; none models the KeyError
    of a missing key and the TypeError of indexing a non-object. -/
def Json.get (j : Json) (key : String) : Option Json :=
  match j with
  | .obj fields => jsonLookup fields key
  | _ => none

/-- Header values as the code builds them: either a plain string or a
    Python set literal of strings, the latter being what _get_header
    actually produces. -/
inductive HeaderVal where
  | str (s : String)
  | strset (elems : List String)
deriving DecidableEq

structure HttpResponse where
  status_code : Nat
  text : String
  json : Option Json

structure HttpRequest where
  url : String
  params : List (String × String)
  headers : List (String × HeaderVal)

/-- An outbound network call: a GET request or a form-encoded POST. -/
inductive HttpEvent where
  | get (r : HttpRequest)
  | post (url : String) (data : List (String × String))

/-- The exceptions the two modules raise. TTAMOAuthError is constructed
    once with a single response text (assert_good_resp) and once with the
    list of the texts of every fan-out response (get_snps). -/
inductive PyErr where
  | ttamOAuthStr (body : String)
  | ttamOAuthList (bodies : List String)
  | baseSpaceOAuth
  | runtimeError (msg : String)
deriving DecidableEq

structure TTAMConfig where
  client_id : String
  client_secret : String
  redirect_uri : String
  scope : String

/-- The persisted credential record: the db.Model columns of TTAMClient.
    Unset nullable columns are modelled by the defaults of emptyTTAMClient;
    no claim exercises a genuinely absent column. -/
structure TTAMClient where
  user_id : String
  access_token : String
  refresh_token : String
  expire_at : Int
  api_base : String
  profiles : String
deriving DecidableEq

def emptyTTAMClient : TTAMClient :=
  { user_id := "", access_token := "", refresh_token := "", expire_at := 0,
    api_base := "", profiles := "" }

def TOKEN_URI : String := "https://api.23andme.com/token/"

def API_BASE : String := "https://api.23andme.com/1/"

/-- The ambient execution environment: the current time, the deterministic
    HTTP oracles and the TTAM_CONFIG of the application. -/
structure ApiEnv where
  now : Int
  http_get : HttpRequest → HttpResponse
  token_post : List (String × String) → HttpResponse
  config : TTAMConfig

/-- urljoin of urlparse as exercised by this client: every reference passed
    in the source is a relative path segment without dot segments, scheme
    or authority, and every base has a nonempty path, in which case urljoin
    keeps the base up to and including its last slash and appends the
    reference. -/
def pyUrljoin (base ref : String) : String :=
  String.mk ((base.toList.reverse.dropWhile (fun ch => ch != '/')).reverse) ++ ref

/-- str.join of Python. -/
def pyJoin (sep : String) : List String → String
  | [] => ""
  | [s] => s
  | s :: t :: rest => s ++ sep ++ pyJoin sep (t :: rest)

def pyIsSpace (ch : Char) : Bool :=
  ch == ' ' || ch == '\t' || ch == '\n' || ch == '\r' ||
    ch == Char.ofNat 11 || ch == Char.ofNat 12

/-- Whitespace splitting of str.split() with no argument: the tokens
    between maximal whitespace runs, with empty tokens dropped. The
    accumulator holds the current token reversed. -/
def wsTokensAux : List Char → List Char → List (List Char)
  | [], acc => if acc.isEmpty then [] else [acc.reverse]
  | ch :: rest, acc =>
    if pyIsSpace ch then
      if acc.isEmpty then wsTokensAux rest [] else acc.reverse :: wsTokensAux rest []
    else wsTokensAux rest (ch :: acc)

def pySplitWs (s : String) : List String :=
  (wsTokensAux s.toList []).map String.mk

def TTAMClient.is_expired (c : TTAMClient) (now : Int) : Bool :=
  decide (now > c.expire_at)

def TTAMClient.get_profiles (c : TTAMClient) : List String :=
  pySplitWs c.profiles

/-- TTAMClient._get_header. Note that the source builds the header value as
    the Python set literal holding the access token, not as the token
    string itself. -/
def TTAMClient._get_header (c : TTAMClient) : List (String × HeaderVal) :=
  [("x-access-token", HeaderVal.strset [c.access_token])]

/-- TTAMClient._set_tokens, with the field-by-field mutation order of the
    source: a missing key aborts after the earlier assignments have already
    happened. Token values are modelled as strings; a non-string value in
    the response is modelled as an error, which no claim exercises. -/
def TTAMClient._set_tokens (c : TTAMClient) (now : Int) (credentials : Json) :
    TTAMClient × Option PyErr :=
  match credentials.get "access_token" with
  | some (Json.str a) =>
    let c1 := { c with access_token := a }
    (match credentials.get "refresh_token" with
     | some (Json.str r) =>
       let c2 := { c1 with refresh_token := r }
       (match credentials.get "expires_in" with
        | some (Json.num e) => ({ c2 with expire_at := now + (e - 100) }, none)
        | some _ => (c2, some (PyErr.runtimeError "TypeError: expires_in"))
        | none => (c2, some (PyErr.runtimeError "KeyError: expires_in")))
     | some _ => (c1, some (PyErr.runtimeError "TypeError: refresh_token"))
     | none => (c1, some (PyErr.runtimeError "KeyError: refresh_token")))
  | some _ => (c, some (PyErr.runtimeError "TypeError: access_token"))
  | none => (c, some (PyErr.runtimeError "KeyError: access_token"))

/-- The form data of the refresh-token exchange of TTAMClient.update. -/
def refreshPostData (cfg : TTAMConfig) (tok : String) : List (String × String) :=
  [("client_id", cfg.client_id), ("client_secret", cfg.client_secret),
   ("grant_type", "refresh_token"), ("redirect_uri", cfg.redirect_uri),
   ("scope", cfg.scope), ("refresh_token", tok)]

/-- The form data of the authorization-code exchange of __init__. -/
def initPostData (cfg : TTAMConfig) (code : String) : List (String × String) :=
  [("client_id", cfg.client_id), ("client_secret", cfg.client_secret),
   ("grant_type", "authorization_code"), ("redirect_uri", cfg.redirect_uri),
   ("scope", cfg.scope), ("code", code)]

/-- TTAMClient.update, the refresh exchange: the POST, assert_good_resp and
    _set_tokens. The returned client is the state after the call, unchanged
    when the exchange fails; db.session persistence is modelled only by
    that returned record. -/
def TTAMClient.update (c : TTAMClient) (env : ApiEnv) :
    (TTAMClient × Option PyErr) × List HttpEvent :=
  let post_data := refreshPostData env.config c.refresh_token
  let resp := env.token_post post_data
  let evs := [HttpEvent.post TOKEN_URI post_data]
  if resp.status_code != 200 then
    ((c, some (PyErr.ttamOAuthStr resp.text)), evs)
  else
    match resp.json with
    | none => ((c, some (PyErr.runtimeError "ValueError: invalid json")), evs)
    | some cred => (TTAMClient._set_tokens c env.now cred, evs)

/-- The api_call decorator: refresh when expired, then run the wrapped
    call with the (possibly refreshed) client. -/
def api_wrap {α : Type} (env : ApiEnv) (c : TTAMClient)
    (f : TTAMClient → Except PyErr α × List HttpEvent) :
    Except PyErr (α × TTAMClient) × List HttpEvent :=
  if c.is_expired env.now then
    match c.update env with
    | ((_, some e), evu) => (Except.error e, evu)
    | ((c1, none), evu) =>
      match f c1 with
      | (Except.ok a, ev) => (Except.ok (a, c1), evu ++ ev)
      | (Except.error e, ev) => (Except.error e, evu ++ ev)
  else
    match f c with
    | (Except.ok a, ev) => (Except.ok (a, c), ev)
    | (Except.error e, ev) => (Except.error e, ev)

/-- TTAMClient.get_patients without its api_call guard: one authenticated
    GET to names/ under the current api base, assert_good_resp, then the
    profiles field of the body. -/
def TTAMClient.get_patients_core (c : TTAMClient) (env : ApiEnv) :
    Except PyErr (List Json) × List HttpEvent :=
  let req : HttpRequest :=
    { url := pyUrljoin c.api_base "names/", params := [],
      headers := TTAMClient._get_header c }
  let resp := env.http_get req
  if resp.status_code != 200 then
    (Except.error (PyErr.ttamOAuthStr resp.text), [HttpEvent.get req])
  else
    match resp.json with
    | none => (Except.error (PyErr.runtimeError "ValueError: invalid json"), [HttpEvent.get req])
    | some j =>
      match j.get "profiles" with
      | some (Json.arr l) => (Except.ok l, [HttpEvent.get req])
      | some _ => (Except.error (PyErr.runtimeError "TypeError: profiles"), [HttpEvent.get req])
      | none => (Except.error (PyErr.runtimeError "KeyError: profiles"), [HttpEvent.get req])

def TTAMClient.get_patients (c : TTAMClient) (env : ApiEnv) :
    Except PyErr (List Json × TTAMClient) × List HttpEvent :=
  api_wrap env c (fun c1 => TTAMClient.get_patients_core c1 env)

/-- The query arguments of one fan-out genotype request: the space-joined
    rsids and the embedded format flag, kept at the decoded parameter
    level (urlencode round-trips them onto the wire). -/
def snps_args (query : List String) : List (String × String) :=
  [("locations", pyJoin " " query), ("format", "embedded")]

/-- One per-profile genotype request of get_snps. -/
def snpsRequest (c : TTAMClient) (query : List String) (p : String) : HttpRequest :=
  { url := pyUrljoin (pyUrljoin c.api_base "genotypes/") p,
    params := snps_args query,
    headers := TTAMClient._get_header c }

/-- The URLs that the fan-out constructs, one per target profile. -/
def snps_urls (c : TTAMClient) (query : List String) (pids : List String) : List String :=
  pids.map (fun p => (snpsRequest c query p).url)

abbrev PyDict := List (Json × Json)

/-- Equality of Python dict keys restricted to the hashable scalar JSON
    shapes; list and dict keys never reach a comparison because insertion
    rejects them first. -/
def jsonScalarEq : Json → Json → Bool
  | Json.str a, Json.str b => a == b
  | Json.num a, Json.num b => a == b
  | _, _ => false

/-- Insertion into a Python dict: an unhashable key is a TypeError, an
    existing equal key keeps its position and takes the new value, a fresh
    key is appended. -/
def pyDictInsert (d : PyDict) (k v : Json) : Except PyErr PyDict :=
  match k with
  | Json.arr _ => Except.error (PyErr.runtimeError "TypeError: unhashable")
  | Json.obj _ => Except.error (PyErr.runtimeError "TypeError: unhashable")
  | _ =>
    if d.any (fun kv => jsonScalarEq kv.1 k) then
      Except.ok (d.map (fun kv => if jsonScalarEq kv.1 k then (kv.1, v) else kv))
    else Except.ok (d ++ [(k, v)])

def pyDictLookup : PyDict → Json → Option Json
  | [], _ => none
  | kv :: rest, k => if jsonScalarEq kv.1 k then some kv.2 else pyDictLookup rest k

/-- Per-response work of the success path of get_snps: resp.json(), then
    the id and genotypes fields of the body. -/
def extractEntry (r : HttpResponse) : Except PyErr (Json × Json) :=
  match r.json with
  | none => Except.error (PyErr.runtimeError "ValueError: invalid json")
  | some j =>
    match j.get "id" with
    | none => Except.error (PyErr.runtimeError "KeyError: id")
    | some i =>
      match j.get "genotypes" with
      | none => Except.error (PyErr.runtimeError "KeyError: genotypes")
      | some g => Except.ok (i, g)

/-- The dict comprehension of get_snps, consuming the responses in request
    order and inserting as it goes. -/
def buildDict : List HttpResponse → PyDict → Except PyErr PyDict
  | [], d => Except.ok d
  | r :: rs, d =>
    match extractEntry r with
    | Except.error e => Except.error e
    | Except.ok (i, g) =>
      match pyDictInsert d i g with
      | Except.error e => Except.error e
      | Except.ok d1 => buildDict rs d1

/-- The pids default of get_snps: the cached profiles when none are given. -/
def pidsOf (c : TTAMClient) : Option (List String) → List String
  | none => TTAMClient.get_profiles c
  | some l => l

/-- TTAMClient.get_snps without its api_call guard. grequests.map returns
    the responses in request order whatever order they complete in, so the
    oracle is indexed by the request and completion order does not appear:
    the result depends only on the per-request responses. -/
def TTAMClient.get_snps_core (c : TTAMClient) (env : ApiEnv) (query : List String)
    (pids : Option (List String)) : Except PyErr PyDict × List HttpEvent :=
  let ps := pidsOf c pids
  let reqs := ps.map (fun p => snpsRequest c query p)
  let resps := reqs.map env.http_get
  let events := reqs.map HttpEvent.get
  if resps.any (fun r => r.status_code != 200) then
    (Except.error (PyErr.ttamOAuthList (resps.map (fun r => r.text))), events)
  else
    (buildDict resps [], events)

def TTAMClient.get_snps (c : TTAMClient) (env : ApiEnv) (query : List String)
    (pids : Option (List String)) :
    Except PyErr (PyDict × TTAMClient) × List HttpEvent :=
  api_wrap env c (fun c1 => TTAMClient.get_snps_core c1 env query pids)

/-- TTAMClient.set_api_base: point at production, probe the profile list,
    and switch to the demo variant when it is empty. -/
def TTAMClient.set_api_base (c : TTAMClient) (env : ApiEnv) :
    Except PyErr TTAMClient × List HttpEvent :=
  match TTAMClient.get_patients { c with api_base := API_BASE } env with
  | (Except.error e, ev) => (Except.error e, ev)
  | (Except.ok (patients, c2), ev) =>
    (Except.ok (if patients.length = 0 then { c2 with api_base := pyUrljoin API_BASE "demo" } else c2),
     ev)

/-- The generator of __init__ joining the id of each profile object; a
    missing or non-string id raises at that element. -/
def profileIds : List Json → Except PyErr (List String)
  | [] => Except.ok []
  | p :: rest =>
    match p.get "id" with
    | some (Json.str s) =>
      (match profileIds rest with
       | Except.ok l => Except.ok (s :: l)
       | Except.error e => Except.error e)
    | _ => Except.error (PyErr.runtimeError "TypeError: id")

/-- TTAMClient.__init__: the authorization-code exchange, the capability
    probe, the second profile fetch cached into profiles, and the user id. -/
def TTAMClient.init (code : String) (user_id : String) (ttam_config : TTAMConfig)
    (env : ApiEnv) : Except PyErr TTAMClient × List HttpEvent :=
  let post_data := initPostData ttam_config code
  let resp := env.token_post post_data
  let ev0 := [HttpEvent.post TOKEN_URI post_data]
  if resp.status_code != 200 then (Except.error (PyErr.ttamOAuthStr resp.text), ev0)
  else
    match resp.json with
    | none => (Except.error (PyErr.runtimeError "ValueError: invalid json"), ev0)
    | some cred =>
      match TTAMClient._set_tokens emptyTTAMClient env.now cred with
      | (_, some e) => (Except.error e, ev0)
      | (c1, none) =>
        match TTAMClient.set_api_base c1 env with
        | (Except.error e, ev1) => (Except.error e, ev0 ++ ev1)
        | (Except.ok c2, ev1) =>
          match TTAMClient.get_patients c2 env with
          | (Except.error e, ev2) => (Except.error e, ev0 ++ ev1 ++ ev2)
          | (Except.ok (patients, c3), ev2) =>
            match profileIds patients with
            | Except.error e => (Except.error e, ev0 ++ ev1 ++ ev2)
            | Except.ok ids =>
              (Except.ok { c3 with profiles := pyJoin " " ids, user_id := user_id },
               ev0 ++ ev1 ++ ev2)

/-- The BaseSpaceClient model lives in src/fhir/basespace/models.py, which
    is not among the sources here; the guard of adaptor.py only tests the
    record for presence, so an abstract record suffices and the guarded
    provider call is a parameter quantified over in the theorems. -/
structure BaseSpaceClient where
  email : String

/-- acquire_client: g.bs_client is the store lookup by the authorizer
    email (BaseSpaceClient.query.get). -/
def acquire_client (store : String → Option BaseSpaceClient) (email : String) :
    Option BaseSpaceClient :=
  store email

/-- The require_client decorator: raise BaseSpaceOAuthError when no client
    record was resolved, else run the adaptor. -/
def require_client {α : Type} (bs_client : Option BaseSpaceClient)
    (adaptor : Unit → Except PyErr α × List HttpEvent) :
    Except PyErr α × List HttpEvent :=
  match bs_client with
  | none => (Except.error PyErr.baseSpaceOAuth, [])
  | some _ => adaptor ()

/-- get_many of adaptor.py: guarded by require_client, it refetches the
    client from the store and runs its get_patients operation, whose body
    (in the absent models.py) is the parameter get_patients_op. -/
def get_many {α : Type} (store : String → Option BaseSpaceClient) (email : String)
    (get_patients_op : BaseSpaceClient → Except PyErr α × List HttpEvent) :
    Except PyErr α × List HttpEvent :=
  require_client (acquire_client store email) (fun _ =>
    match store email with
    | some c => get_patients_op c
    | none => (Except.error (PyErr.runtimeError "AttributeError: NoneType"), []))

/-- Phases of one worker passing through the api_call guard while its
    token is refreshed: not yet checked, seen as expired, refresh POST in
    flight carrying the refresh token it was built from, finished. -/
inductive RPhase where
  | start
  | sawExpired
  | inFlight (tok : String)
  | done
deriving DecidableEq

/-- Two workers sharing one credential record; posted lists the refresh
    tokens submitted to the token endpoint, in submission order. -/
structure RaceState where
  client : TTAMClient
  t0 : RPhase
  t1 : RPhase
  posted : List String
deriving DecidableEq

def setPhase (s : RaceState) (tid : Bool) (ph : RPhase) : RaceState :=
  if tid then { s with t1 := ph } else { s with t0 := ph }

def phaseOf (s : RaceState) (tid : Bool) : RPhase :=
  if tid then s.t1 else s.t0

/-- One atomic step of one of two workers concurrently entering the
    api_call guard of the source: the expiry check, the send of the
    refresh POST (update builds post_data from self.refresh_token at that
    moment) and the receipt of the response (which runs _set_tokens)
    interleave at this grain, matching the blocking POST of update. -/
def race_step (env : ApiEnv) (s : RaceState) (tid : Bool) : RaceState :=
  match phaseOf s tid with
  | RPhase.start =>
    setPhase s tid (if s.client.is_expired env.now then RPhase.sawExpired else RPhase.done)
  | RPhase.sawExpired =>
    let tok := s.client.refresh_token
    setPhase { s with posted := s.posted ++ [tok] } tid (RPhase.inFlight tok)
  | RPhase.inFlight tok =>
    let resp := env.token_post (refreshPostData env.config tok)
    if resp.status_code != 200 then setPhase s tid RPhase.done
    else
      (match resp.json with
       | some cred =>
         setPhase { s with client := (TTAMClient._set_tokens s.client env.now cred).1 }
           tid RPhase.done
       | none => setPhase s tid RPhase.done)
  | RPhase.done => s

def race_run (env : ApiEnv) (s : RaceState) : List Bool → RaceState
  | [] => s
  | tid :: rest => race_run env (race_step env s tid) rest

def raceInit (c : TTAMClient) : RaceState :=
  { client := c, t0 := RPhase.start, t1 := RPhase.start, posted := [] }

/-- The token-exchange response body used by several scenarios. -/
def tokenJson (a r : String) (e : Int) : Json :=
  Json.obj [("access_token", Json.str a), ("refresh_token", Json.str r),
            ("expires_in", Json.num e)]

/-- C3: a provider-facing operation (get_many) invoked for a principal
    whose store lookup yields no credential record fails with the
    missing-credential error and issues zero HTTP events, whatever the
    guarded provider call would have done (so before any token refresh or
    request of that call could run). -/
theorem c3_missing_credential {α : Type} (store : String → Option BaseSpaceClient)
    (email : String) (op : BaseSpaceClient → Except PyErr α × List HttpEvent)
    (h : store email = none) :
    get_many store email op = (Except.error PyErr.baseSpaceOAuth, []) := by
  simp [get_many, require_client, acquire_client, h]

theorem c3_witness :
    (fun _ : String => (none : Option BaseSpaceClient)) "alice@example.org" = none ∧
    get_many (fun _ : String => (none : Option BaseSpaceClient)) "alice@example.org"
      (fun c => (Except.ok c.email, [HttpEvent.post TOKEN_URI []])) =
      (Except.error PyErr.baseSpaceOAuth, []) :=
  ⟨rfl, c3_missing_credential (fun _ => none) "alice@example.org"
    (fun c => (Except.ok c.email, [HttpEvent.post TOKEN_URI []])) rfl⟩

def c7_client : TTAMClient :=
  { user_id := "u", access_token := "A1", refresh_token := "R1", expire_at := 100,
    api_base := "https://api.23andme.com/1/", profiles := "p1" }

/-- C7: every authenticated call carries the x-access-token header, but its
    value is the one-element Python set holding the access token, not the
    token string the claim prescribes. -/
theorem c7_header_is_set_literal :
    (∀ c : TTAMClient, TTAMClient._get_header c =
      [("x-access-token", HeaderVal.strset [c.access_token])]) ∧
    TTAMClient._get_header c7_client ≠ [("x-access-token", HeaderVal.str "A1")] :=
  ⟨fun _ => rfl, by decide⟩

def DEMO_BASE : String := "https://api.23andme.com/1/demo"

def c8_demo_client : TTAMClient :=
  { user_id := "u", access_token := "A1", refresh_token := "R1", expire_at := 100,
    api_base := DEMO_BASE, profiles := "p1" }

/-- C8: in demo mode the genotype URL silently loses the demo path segment,
    because the demo base set by set_api_base lacks a trailing slash and
    urljoin replaces its last segment; the production URL and the query
    parameters (space-joined rsids in input order, duplicates preserved,
    embedded format) do match the claim. -/
theorem c8_demo_url_drops_segment :
    pyUrljoin API_BASE "demo" = DEMO_BASE ∧
    snps_urls c8_demo_client ["rs123"] ["p1"] = ["https://api.23andme.com/1/genotypes/p1"] ∧
    "https://api.23andme.com/1/genotypes/p1" ≠ DEMO_BASE ++ "/genotypes/" ++ "p1" ∧
    snps_urls { c8_demo_client with api_base := API_BASE } ["rs123"] ["p1"] =
      ["https://api.23andme.com/1/genotypes/p1"] ∧
    snps_args ["rs1", "rs2", "rs1"] = [("locations", "rs1 rs2 rs1"), ("format", "embedded")] :=
  ⟨rfl, rfl, by decide, rfl, rfl⟩

/-- C4: a successful exchange response carrying the three token fields
    updates the access and the refresh token together and sets the expiry
    to now plus expires_in minus the 100 second margin; the first conjunct
    is the shared _set_tokens path of the initial and the refresh exchange,
    the second the full refresh call. -/
theorem c4_token_fields (c : TTAMClient) (env : ApiEnv) (a r tx : String) (e : Int)
    (h : env.token_post (refreshPostData env.config c.refresh_token) =
      { status_code := 200, text := tx, json := some (tokenJson a r e) }) :
    TTAMClient._set_tokens c env.now (tokenJson a r e) =
      ({ c with access_token := a, refresh_token := r,
                expire_at := env.now + (e - 100) }, none) ∧
    TTAMClient.update c env =
      (({ c with access_token := a, refresh_token := r,
                 expire_at := env.now + (e - 100) }, none),
       [HttpEvent.post TOKEN_URI (refreshPostData env.config c.refresh_token)]) := by
  refine ⟨rfl, ?_⟩
  simp only [TTAMClient.update, h]
  rfl

def c4_env : ApiEnv :=
  { now := 1000,
    http_get := fun _ => { status_code := 404, text := "", json := none },
    token_post := fun _ =>
      { status_code := 200, text := "tok", json := some (tokenJson "A2" "R2" 3600) },
    config := { client_id := "cid", client_secret := "cs", redirect_uri := "ru",
                scope := "sc" } }

def c4_client : TTAMClient :=
  { user_id := "u", access_token := "A1", refresh_token := "R1", expire_at := 0,
    api_base := "https://api.23andme.com/1/", profiles := "p1" }

theorem c4_witness :
    c4_env.token_post (refreshPostData c4_env.config c4_client.refresh_token) =
      { status_code := 200, text := "tok", json := some (tokenJson "A2" "R2" 3600) } ∧
    TTAMClient.update c4_client c4_env =
      (({ c4_client with access_token := "A2", refresh_token := "R2",
                         expire_at := 1000 + (3600 - 100) }, none),
       [HttpEvent.post TOKEN_URI (refreshPostData c4_env.config c4_client.refresh_token)]) :=
  ⟨rfl, (c4_token_fields c4_client c4_env "A2" "R2" "tok" 3600 rfl).2⟩

/-- C6: a refresh exchange answered with a non-200 response raises the
    OAuth error carrying the response body, and the returned record is the
    incoming one, all three token fields included, so no field is mutated
    on that path (assert_good_resp runs before _set_tokens). -/
theorem c6_refresh_failure_keeps_record (c : TTAMClient) (env : ApiEnv)
    (h : (env.token_post (refreshPostData env.config c.refresh_token)).status_code ≠ 200) :
    TTAMClient.update c env =
      ((c, some (PyErr.ttamOAuthStr
          (env.token_post (refreshPostData env.config c.refresh_token)).text)),
       [HttpEvent.post TOKEN_URI (refreshPostData env.config c.refresh_token)]) ∧
    ((TTAMClient.update c env).1.1.access_token = c.access_token ∧
     (TTAMClient.update c env).1.1.refresh_token = c.refresh_token ∧
     (TTAMClient.update c env).1.1.expire_at = c.expire_at) := by
  have h1 : ((env.token_post (refreshPostData env.config c.refresh_token)).status_code != 200)
      = true := by simpa using h
  refine ⟨?_, ?_⟩ <;> simp [TTAMClient.update, h1]

def c6_env : ApiEnv :=
  { now := 1000,
    http_get := fun _ => { status_code := 404, text := "", json := none },
    token_post := fun _ => { status_code := 500, text := "bad refresh", json := none },
    config := { client_id := "cid", client_secret := "cs", redirect_uri := "ru",
                scope := "sc" } }

def c6_client : TTAMClient :=
  { user_id := "u", access_token := "A1", refresh_token := "R1", expire_at := 0,
    api_base := "https://api.23andme.com/1/", profiles := "p1" }

theorem c6_witness :
    (c6_env.token_post (refreshPostData c6_env.config c6_client.refresh_token)).status_code ≠ 200 ∧
    TTAMClient.update c6_client c6_env =
      ((c6_client, some (PyErr.ttamOAuthStr "bad refresh")),
       [HttpEvent.post TOKEN_URI (refreshPostData c6_env.config c6_client.refresh_token)]) :=
  ⟨by decide, (c6_refresh_failure_keeps_record c6_client c6_env (by decide)).1⟩

/-- C9 (amended): the api_call guard performs no per-credential mutual
    exclusion; under the interleaving in which both workers pass the
    expiry check before either refresh response arrives, both refresh
    exchanges are submitted with the same refresh-token value. -/
theorem c9_double_spend_schedule (c : TTAMClient) (env : ApiEnv)
    (h : TTAMClient.is_expired c env.now = true) :
    (race_run env (raceInit c) [false, true, false, true]).posted =
      [c.refresh_token, c.refresh_token] := by
  simp [race_run, race_step, raceInit, phaseOf, setPhase, h]

def c9_client : TTAMClient :=
  { user_id := "u", access_token := "A1", refresh_token := "R1", expire_at := 0,
    api_base := "https://api.23andme.com/1/", profiles := "p1" }

def c9_env : ApiEnv :=
  { now := 10,
    http_get := fun _ => { status_code := 404, text := "", json := none },
    token_post := fun _ =>
      { status_code := 200, text := "tok", json := some (tokenJson "A2" "R2" 3600) },
    config := { client_id := "cid", client_secret := "cs", redirect_uri := "ru",
                scope := "sc" } }

theorem c9_witness :
    TTAMClient.is_expired c9_client c9_env.now = true ∧
    (race_run c9_env (raceInit c9_client) [false, true, false, true]).posted = ["R1", "R1"] :=
  ⟨rfl, c9_double_spend_schedule c9_client c9_env rfl⟩

/-- C9 (counterexample): a concrete interleaving of two concurrent refresh
    attempts on one expired credential in which the refresh token R1 is
    submitted to the token endpoint twice, so two exchanges use the same
    refresh-token value. -/
theorem c9_counterexample :
    ((race_run c9_env (raceInit c9_client) [false, true, false, true]).posted.count "R1" = 2) ∧
    (race_run c9_env (raceInit c9_client) [false, true, false, true]).posted ≠ ["R1"] := by
  exact ⟨by decide, by decide⟩

/-- All-whitespace input splits to no tokens. -/
theorem wsTokensAux_all_space (l : List Char) (h : ∀ ch ∈ l, pyIsSpace ch = true) :
    wsTokensAux l [] = [] := by
  induction l with
  | nil => rfl
  | cons ch rest ih =>
    have hch : pyIsSpace ch = true := h ch (by simp)
    simp only [wsTokensAux, hch, if_true, List.isEmpty_nil]
    exact ih (fun x hx => h x (by simp [hx]))

/-- C10: with a cached profiles string that is empty or whitespace only and
    an unexpired token, get_snps with default pids issues no requests at
    all and returns the empty dict without an error, whatever the variant
    list is. -/
theorem c10_empty_profiles_noop (c : TTAMClient) (env : ApiEnv) (query : List String)
    (hexp : TTAMClient.is_expired c env.now = false)
    (hws : ∀ ch ∈ c.profiles.toList, pyIsSpace ch = true) :
    TTAMClient.get_snps c env query none = (Except.ok ([], c), []) := by
  have hprof : TTAMClient.get_profiles c = [] := by
    unfold TTAMClient.get_profiles pySplitWs
    rw [wsTokensAux_all_space _ hws]
    rfl
  simp [TTAMClient.get_snps, api_wrap, hexp, TTAMClient.get_snps_core, pidsOf, hprof,
    buildDict]

def c10_client : TTAMClient :=
  { user_id := "u", access_token := "A1", refresh_token := "R1", expire_at := 100,
    api_base := "https://api.23andme.com/1/", profiles := " " }

def c10_env : ApiEnv :=
  { now := 0,
    http_get := fun _ => { status_code := 500, text := "never called", json := none },
    token_post := fun _ => { status_code := 500, text := "never called", json := none },
    config := { client_id := "cid", client_secret := "cs", redirect_uri := "ru",
                scope := "sc" } }

theorem c10_witness :
    TTAMClient.is_expired c10_client c10_env.now = false ∧
    (∀ ch ∈ c10_client.profiles.toList, pyIsSpace ch = true) ∧
    TTAMClient.get_snps c10_client c10_env ["rs123"] none = (Except.ok ([], c10_client), []) :=
  ⟨rfl, by decide, c10_empty_profiles_noop c10_client c10_env ["rs123"] rfl (by decide)⟩

/-- C1 (amended): when any per-profile response of the fan-out is non-200,
    the call raises TTAMOAuthError whose payload is the body of every
    response, succeeding ones included, in request order, and no mapping
    is returned. -/
theorem c1_aggregates_all_bodies (c : TTAMClient) (env : ApiEnv) (query : List String)
    (pidsArg : Option (List String))
    (hexp : TTAMClient.is_expired c env.now = false)
    (hfail : ((pidsOf c pidsArg).map (fun p => env.http_get (snpsRequest c query p))).any
        (fun r => r.status_code != 200) = true) :
    TTAMClient.get_snps c env query pidsArg =
      (Except.error (PyErr.ttamOAuthList
         (((pidsOf c pidsArg).map (fun p => env.http_get (snpsRequest c query p))).map
            (fun r => r.text))),
       (pidsOf c pidsArg).map (fun p => HttpEvent.get (snpsRequest c query p))) := by
  have hcore : TTAMClient.get_snps_core c env query pidsArg =
      (Except.error (PyErr.ttamOAuthList
         (((pidsOf c pidsArg).map (fun p => env.http_get (snpsRequest c query p))).map
            (fun r => r.text))),
       (pidsOf c pidsArg).map (fun p => HttpEvent.get (snpsRequest c query p))) := by
    unfold TTAMClient.get_snps_core
    simp only [List.map_map, Function.comp_def]
    rw [hfail]
    simp
  unfold TTAMClient.get_snps api_wrap
  rw [hexp]
  simp only [Bool.false_eq_true, if_false, hcore]

def c1_client : TTAMClient :=
  { user_id := "u", access_token := "A1", refresh_token := "R1", expire_at := 50,
    api_base := "https://api.23andme.com/1/", profiles := "p1 p2" }

def c1_resp_ok : HttpResponse :=
  { status_code := 200, text := "ok1",
    json := some (Json.obj [("id", Json.str "p1"),
                            ("genotypes", Json.obj [("rs123", Json.str "AA")])]) }

def c1_resp_bad : HttpResponse :=
  { status_code := 500, text := "err2", json := none }

def c1_env : ApiEnv :=
  { now := 0,
    http_get := fun r =>
      if r.url = "https://api.23andme.com/1/genotypes/p1" then c1_resp_ok else c1_resp_bad,
    token_post := fun _ => { status_code := 500, text := "", json := none },
    config := { client_id := "", client_secret := "", redirect_uri := "", scope := "" } }

/-- C1 (counterexample): with profile p1 succeeding (body ok1) and p2
    failing with 500 (body err2), the aggregated payload is the bodies of
    both responses; it contains the body of the succeeding response, so it
    is not the list of the failing bodies only. -/
theorem c1_counterexample :
    (TTAMClient.get_snps c1_client c1_env ["rs123"] (some ["p1", "p2"])).1 =
      Except.error (PyErr.ttamOAuthList ["ok1", "err2"]) ∧
    (c1_env.http_get (snpsRequest c1_client ["rs123"] "p1")).status_code = 200 ∧
    (c1_env.http_get (snpsRequest c1_client ["rs123"] "p1")).text = "ok1" ∧
    (["ok1", "err2"] : List String) ≠ ["err2"] :=
  ⟨rfl, rfl, rfl, by decide⟩

theorem c1_witness :
    TTAMClient.is_expired c1_client c1_env.now = false ∧
    TTAMClient.get_snps c1_client c1_env ["rs123"] (some ["p1", "p2"]) =
      (Except.error (PyErr.ttamOAuthList ["ok1", "err2"]),
       [HttpEvent.get (snpsRequest c1_client ["rs123"] "p1"),
        HttpEvent.get (snpsRequest c1_client ["rs123"] "p2")]) := by
  refine ⟨rfl, ?_⟩
  exact c1_aggregates_all_bodies c1_client c1_env ["rs123"] (some ["p1", "p2"]) rfl rfl

theorem pyDictInsert_str_fresh (d : PyDict) (s : String) (v : Json)
    (hs : d.any (fun kv => jsonScalarEq kv.1 (Json.str s)) = false) :
    pyDictInsert d (Json.str s) v = Except.ok (d ++ [(Json.str s, v)]) := by
  unfold pyDictInsert
  simp [hs]

/-- Feeding the dict comprehension responses whose ids are pairwise fresh
    appends their entries in request order. -/
theorem buildDict_fresh (resp : String → HttpResponse) (f : String → String)
    (g : String → Json) (ps : List String) :
    ∀ d : PyDict,
      (∀ p ∈ ps, extractEntry (resp p) = Except.ok (Json.str (f p), g p)) →
      (∀ p ∈ ps, d.any (fun kv => jsonScalarEq kv.1 (Json.str (f p))) = false) →
      (ps.map f).Nodup →
      buildDict (ps.map resp) d = Except.ok (d ++ ps.map (fun p => (Json.str (f p), g p))) := by
  induction ps with
  | nil => intro d _ _ _; simp [buildDict]
  | cons p ps ih =>
    intro d hok hfresh hnodup
    have hp := hok p (by simp)
    have hfp := hfresh p (by simp)
    rw [List.map_cons, List.nodup_cons] at hnodup
    obtain ⟨hnotmem, hnodup1⟩ := hnodup
    simp only [List.map_cons, buildDict, hp, pyDictInsert_str_fresh d (f p) (g p) hfp]
    rw [ih (d ++ [(Json.str (f p), g p)]) ?hok1 ?hfresh1 hnodup1]
    · simp
    case hok1 => intro q hq; exact hok q (by simp [hq])
    case hfresh1 =>
      intro q hq
      have h1 := hfresh q (by simp [hq])
      have hne : (f p == f q) = false := by
        apply beq_eq_false_iff_ne.mpr
        intro hEq
        have hmem : f q ∈ ps.map f := List.mem_map_of_mem f hq
        rw [← hEq] at hmem
        exact hnotmem hmem
      rw [List.any_append, h1]
      simp [jsonScalarEq, hne]

/-- C2: when every per-profile response is 200 and carries an object with
    its id and genotypes fields, with pairwise distinct ids, the fan-out
    returns exactly the mapping from each response id to its genotypes, in
    request order; the oracle is indexed by request, as grequests.map is,
    so the result is independent of completion order by construction. -/
theorem c2_success_mapping (c : TTAMClient) (env : ApiEnv) (query : List String)
    (pidsArg : Option (List String)) (ps : List String) (f : String → String)
    (g : String → Json)
    (hps : pidsOf c pidsArg = ps)
    (hexp : TTAMClient.is_expired c env.now = false)
    (hok : ∀ p ∈ ps, extractEntry (env.http_get (snpsRequest c query p)) =
      Except.ok (Json.str (f p), g p))
    (h200 : ∀ p ∈ ps, (env.http_get (snpsRequest c query p)).status_code = 200)
    (hnodup : (ps.map f).Nodup) :
    TTAMClient.get_snps c env query pidsArg =
      (Except.ok (ps.map (fun p => (Json.str (f p), g p)), c),
       ps.map (fun p => HttpEvent.get (snpsRequest c query p))) := by
  have hany : (ps.map (fun p => env.http_get (snpsRequest c query p))).any
      (fun r => r.status_code != 200) = false := by
    rw [List.any_eq_false]
    intro r hr
    rw [List.mem_map] at hr
    obtain ⟨p, hp, rfl⟩ := hr
    simp [h200 p hp]
  have hbuild := buildDict_fresh (fun p => env.http_get (snpsRequest c query p)) f g ps []
    hok (by intro p _; rfl) hnodup
  have hcore : TTAMClient.get_snps_core c env query pidsArg =
      (Except.ok (ps.map (fun p => (Json.str (f p), g p))),
       ps.map (fun p => HttpEvent.get (snpsRequest c query p))) := by
    unfold TTAMClient.get_snps_core
    rw [hps]
    simp only [List.map_map, Function.comp_def]
    rw [hany]
    simp only [Bool.false_eq_true, if_false, hbuild, List.nil_append]
  unfold TTAMClient.get_snps api_wrap
  rw [hexp]
  simp only [Bool.false_eq_true, if_false, hcore]

def c2_client : TTAMClient :=
  { user_id := "u", access_token := "A1", refresh_token := "R1", expire_at := 100,
    api_base := "https://api.23andme.com/1/", profiles := "p1 p2" }

def c2_genoP1 : Json := Json.obj [("rs123", Json.str "AA")]

def c2_genoP2 : Json := Json.obj [("rs123", Json.str "AG")]

def c2_env : ApiEnv :=
  { now := 0,
    http_get := fun r =>
      if r.url = "https://api.23andme.com/1/genotypes/p1" then
        { status_code := 200, text := "b1",
          json := some (Json.obj [("id", Json.str "p1"), ("genotypes", c2_genoP1)]) }
      else
        { status_code := 200, text := "b2",
          json := some (Json.obj [("id", Json.str "p2"), ("genotypes", c2_genoP2)]) },
    token_post := fun _ => { status_code := 500, text := "", json := none },
    config := { client_id := "cid", client_secret := "cs", redirect_uri := "ru",
                scope := "sc" } }

theorem c2_witness :
    TTAMClient.is_expired c2_client c2_env.now = false ∧
    TTAMClient.get_snps c2_client c2_env ["rs123"] none =
      (Except.ok ([(Json.str "p1", c2_genoP1), (Json.str "p2", c2_genoP2)], c2_client),
       [HttpEvent.get (snpsRequest c2_client ["rs123"] "p1"),
        HttpEvent.get (snpsRequest c2_client ["rs123"] "p2")]) := by
  refine ⟨rfl, ?_⟩
  have h := c2_success_mapping c2_client c2_env ["rs123"] none ["p1", "p2"]
    (fun p => p) (fun p => if p = "p1" then c2_genoP1 else c2_genoP2)
    rfl rfl ?hok ?h200 ?hnodup
  · exact h
  case hok =>
    intro p hp
    simp only [List.mem_cons, List.not_mem_nil, or_false] at hp
    rcases hp with rfl | rfl
    · rfl
    · rfl
  case h200 =>
    intro p hp
    simp only [List.mem_cons, List.not_mem_nil, or_false] at hp
    rcases hp with rfl | rfl
    · rfl
    · rfl
  case hnodup => decide

def NAMES_URL : String := "https://api.23andme.com/1/names/"

theorem pyUrljoin_prod_names : pyUrljoin API_BASE "names/" = NAMES_URL := rfl

/-- The demo base lacks a trailing slash, so urljoin drops its last segment
    and the names URL under the demo base equals the production one. -/
theorem pyUrljoin_demo_names : pyUrljoin DEMO_BASE "names/" = NAMES_URL := rfl

theorem pyUrljoin_demo : pyUrljoin API_BASE "demo" = DEMO_BASE := rfl

def idObj (i : String) : Json := Json.obj [("id", Json.str i)]

theorem profileIds_idObj (ids : List String) :
    profileIds (ids.map idObj) = Except.ok ids := by
  induction ids with
  | nil => rfl
  | cons i rest ih => simp [profileIds, idObj, Json.get, jsonLookup, ih]

theorem set_tokens_tokenJson (c : TTAMClient) (now : Int) (a r : String) (e : Int) :
    TTAMClient._set_tokens c now (tokenJson a r e) =
      ({ c with access_token := a, refresh_token := r, expire_at := now + (e - 100) },
       none) := rfl

/-- The names request as get_patients builds it for a given access token. -/
def namesRequest (tok : String) : HttpRequest :=
  { url := NAMES_URL, params := [],
    headers := [("x-access-token", HeaderVal.strset [tok])] }

/-- A 200 names response with a profiles array makes get_patients return
    that array, leaving the client untouched, with the one GET event. -/
theorem get_patients_names (c : TTAMClient) (env : ApiEnv) (tn : String) (l : List Json)
    (hbase : pyUrljoin c.api_base "names/" = NAMES_URL)
    (hexp : TTAMClient.is_expired c env.now = false)
    (hnames : env.http_get (namesRequest c.access_token) =
      { status_code := 200, text := tn,
        json := some (Json.obj [("profiles", Json.arr l)]) }) :
    TTAMClient.get_patients c env =
      (Except.ok (l, c), [HttpEvent.get (namesRequest c.access_token)]) := by
  have hcore : TTAMClient.get_patients_core c env =
      (Except.ok l, [HttpEvent.get (namesRequest c.access_token)]) := by
    unfold TTAMClient.get_patients_core
    simp only [TTAMClient._get_header, hbase]
    rw [show ({ url := NAMES_URL, params := [],
                headers := [("x-access-token", HeaderVal.strset [c.access_token])] } :
        HttpRequest) = namesRequest c.access_token from rfl]
    rw [hnames]
    simp [Json.get, jsonLookup]
  unfold TTAMClient.get_patients api_wrap
  rw [hexp]
  simp only [Bool.false_eq_true, if_false, hcore]

/-- The capability probe: under an unexpired token and a deterministic
    names endpoint, set_api_base probes production and switches to the demo
    variant exactly when the profile array is empty. -/
theorem set_api_base_probe (c : TTAMClient) (env : ApiEnv) (tn : String) (l : List Json)
    (hexp : TTAMClient.is_expired { c with api_base := API_BASE } env.now = false)
    (hnames : env.http_get (namesRequest c.access_token) =
      { status_code := 200, text := tn,
        json := some (Json.obj [("profiles", Json.arr l)]) }) :
    TTAMClient.set_api_base c env =
      (Except.ok { c with api_base := if l.length = 0 then DEMO_BASE else API_BASE },
       [HttpEvent.get (namesRequest c.access_token)]) := by
  unfold TTAMClient.set_api_base
  rw [get_patients_names { c with api_base := API_BASE } env tn l pyUrljoin_prod_names
    hexp hnames]
  by_cases hl : l.length = 0
  · simp [hl, pyUrljoin_demo]
  · simp [hl]

theorem set_tokens_api_base (c : TTAMClient) (now : Int) (j : Json) :
    ((TTAMClient._set_tokens c now j).1).api_base = c.api_base := by
  unfold TTAMClient._set_tokens
  repeat' split
  all_goals rfl

theorem update_api_base (c : TTAMClient) (env : ApiEnv) :
    ((TTAMClient.update c env).1.1).api_base = c.api_base := by
  simp only [TTAMClient.update]
  split
  · rfl
  · split
    · rfl
    · exact set_tokens_api_base c env.now _

/-- The client returned by a successful wrapped call is the incoming one or
    its refresh, which never writes the api base. -/
theorem api_wrap_api_base {α : Type} (env : ApiEnv) (c : TTAMClient)
    (f : TTAMClient → Except PyErr α × List HttpEvent) (a : α) (c1 : TTAMClient)
    (ev : List HttpEvent) (h : api_wrap env c f = (Except.ok (a, c1), ev)) :
    c1.api_base = c.api_base := by
  unfold api_wrap at h
  split at h
  · split at h
    · simp at h
    · rename_i cu heq
      split at h
      · rename_i a2 ev2 heq2
        injection h with h1 h2
        injection h1 with h3
        injection h3 with h4 h5
        rw [← h5]
        have := update_api_base c env
        rw [heq] at this
        exact this
      · simp at h
  · split at h
    · rename_i a2 ev2 heq2
      injection h with h1 h2
      injection h1 with h3
      injection h3 with h4 h5
      rw [← h5]
    · simp at h

/-- C5: provisioning probes the production names URL first and again after
    fixing the base (both probe GETs resolve to the production names URL,
    the demo base losing its last segment under urljoin), the api base
    becomes the demo variant exactly when the probe returns no profiles, in
    which case the cached profiles string is empty, and no later operation
    (refresh, fan-out, profile listing) ever writes the api base. -/
theorem c5_capability_probe (ttam_config : TTAMConfig) (env : ApiEnv)
    (code uid a r tx tn : String) (e : Int) (ids : List String)
    (hE : 100 ≤ e)
    (htok : env.token_post (initPostData ttam_config code) =
      { status_code := 200, text := tx, json := some (tokenJson a r e) })
    (hnames : env.http_get (namesRequest a) =
      { status_code := 200, text := tn,
        json := some (Json.obj [("profiles", Json.arr (ids.map idObj))]) }) :
    TTAMClient.init code uid ttam_config env =
      (Except.ok { user_id := uid, access_token := a, refresh_token := r,
                   expire_at := env.now + (e - 100),
                   api_base := if ids.length = 0 then DEMO_BASE else API_BASE,
                   profiles := pyJoin " " ids },
       [HttpEvent.post TOKEN_URI (initPostData ttam_config code),
        HttpEvent.get (namesRequest a), HttpEvent.get (namesRequest a)]) ∧
    (((if ids.length = 0 then DEMO_BASE else API_BASE) = DEMO_BASE ∧ pyJoin " " ids = "")
      ↔ ids = []) ∧
    (∀ (c : TTAMClient) (env1 : ApiEnv),
      ((TTAMClient.update c env1).1.1).api_base = c.api_base) ∧
    (∀ (c c1 : TTAMClient) (env1 : ApiEnv) (q : List String) (pa : Option (List String))
        (d : PyDict) (ev : List HttpEvent),
      TTAMClient.get_snps c env1 q pa = (Except.ok (d, c1), ev) → c1.api_base = c.api_base) ∧
    (∀ (c c1 : TTAMClient) (env1 : ApiEnv) (l : List Json) (ev : List HttpEvent),
      TTAMClient.get_patients c env1 = (Except.ok (l, c1), ev) → c1.api_base = c.api_base) := by
  refine ⟨?_, ?_, fun c env1 => update_api_base c env1, ?_, ?_⟩
  · have hlt : ¬ (env.now > env.now + (e - 100)) := by omega
    have hexp1 : TTAMClient.is_expired
        { user_id := "", access_token := a, refresh_token := r,
          expire_at := env.now + (e - 100), api_base := API_BASE, profiles := "" }
        env.now = false := decide_eq_false hlt
    have hprobe := set_api_base_probe
      { user_id := "", access_token := a, refresh_token := r,
        expire_at := env.now + (e - 100), api_base := "", profiles := "" }
      env tn (ids.map idObj) hexp1 hnames
    simp only [List.length_map] at hprobe
    have hbase2 : pyUrljoin (if ids.length = 0 then DEMO_BASE else API_BASE) "names/" =
        NAMES_URL := by
      split
      · exact pyUrljoin_demo_names
      · exact pyUrljoin_prod_names
    have hpat := get_patients_names
      { user_id := "", access_token := a, refresh_token := r,
        expire_at := env.now + (e - 100),
        api_base := if ids.length = 0 then DEMO_BASE else API_BASE, profiles := "" }
      env tn (ids.map idObj) hbase2 (decide_eq_false hlt) hnames
    simp only [TTAMClient.init, emptyTTAMClient, htok, bne_self_eq_false, Bool.false_eq_true,
      if_false, set_tokens_tokenJson, hprobe, hpat, profileIds_idObj, List.cons_append,
      List.nil_append]
  · constructor
    · rintro ⟨hbase, _⟩
      by_contra hne
      have hlen : ids.length ≠ 0 := fun h0 => hne (List.length_eq_zero.mp h0)
      rw [if_neg hlen] at hbase
      exact absurd hbase (by decide)
    · rintro rfl
      exact ⟨by simp, rfl⟩
  · intro c c1 env1 q pa d ev h
    exact api_wrap_api_base env1 c _ d c1 ev h
  · intro c c1 env1 l ev h
    exact api_wrap_api_base env1 c _ l c1 ev h

def c5_cfg : TTAMConfig :=
  { client_id := "cid", client_secret := "cs", redirect_uri := "ru", scope := "sc" }

def c5_env : ApiEnv :=
  { now := 0,
    http_get := fun _ =>
      { status_code := 200, text := "names",
        json := some (Json.obj [("profiles", Json.arr (List.map idObj []))]) },
    token_post := fun _ =>
      { status_code := 200, text := "tok", json := some (tokenJson "A1" "R1" 3600) },
    config := c5_cfg }

theorem c5_witness :
    (100 : Int) ≤ 3600 ∧
    TTAMClient.init "abc" "alice" c5_cfg c5_env =
      (Except.ok { user_id := "alice", access_token := "A1", refresh_token := "R1",
                   expire_at := 0 + (3600 - 100), api_base := DEMO_BASE, profiles := "" },
       [HttpEvent.post TOKEN_URI (initPostData c5_cfg "abc"),
        HttpEvent.get (namesRequest "A1"), HttpEvent.get (namesRequest "A1")]) :=
  ⟨by decide,
   (c5_capability_probe c5_cfg c5_env "abc" "alice" "A1" "R1" "tok" "names" 3600 []
      (by decide) rfl rfl).1⟩
